import Mathlib

/-!
Verification development for `disman.py`, a Discord washing-machine support
bot.  The embedding models, from the source:

* `WashingMachineAnalyzer.analyze_issue` (the classifier adapter): the
  transport behaviours of the Gemini call are an explicit datatype, the
  reply payload is parsed by an embedded model of `json.loads` restricted
  to the fragment the classifier interface uses (a single flat object with
  primitive fields, or a primitive value; this matches the documented reply
  shape: an object with keys action/response/severity/category/urgency),
  and the embedded-fragment extraction models the greedy regex
  `re.search(r"\x7b.*\x7d", text, re.DOTALL)`.
* `MantisHubIntegration.create_ticket`'s request construction (severity
  map, summary field).
* `TicketDatabase.save_ticket` / the per-user latest-ticket cache as
  key-unique association lists (wall-clock timestamp columns are outside
  the model).
* `DiscordWashingMachineBot.handle_support_request`,
  `send_solution_response`, `create_support_ticket` and `on_reaction_add`
  as explicit state transformers.  Python statements that can raise
  (`d[k]` on a missing key, `.title()` on a non-string) are modelled with
  `Except`; an exception escaping a block is propagated exactly as the
  source's try/except structure dictates.
-/

/-- Primitive JSON value of the classifier-interface fragment. -/
inductive JVal where
  | jstr : String → JVal
  | jint : Int → JVal
  | jtrue : JVal
  | jfalse : JVal
  | jnull : JVal
deriving Repr, DecidableEq

/-- Parsed JSON payload: a primitive, or one flat object. -/
inductive Json where
  | prim : JVal → Json
  | obj : List (String × JVal) → Json
deriving Repr, DecidableEq

/-- Whitespace characters skipped by the JSON decoder. -/
def isWsChar (c : Char) : Bool := c == ' ' || c == '\t' || c == '\n' || c == '\r'

/-- Drop leading JSON whitespace. -/
def skipWs : List Char → List Char
  | [] => []
  | c :: rest => if isWsChar c then skipWs rest else c :: rest

/-- Escape sequences accepted inside a JSON string literal. -/
def escChar : Char → Option Char
  | '\"' => some '\"'
  | '\\' => some '\\'
  | '/' => some '/'
  | 'n' => some '\n'
  | 't' => some '\t'
  | 'r' => some '\r'
  | 'b' => some (Char.ofNat 8)
  | 'f' => some (Char.ofNat 12)
  | _ => none

/-- Parse the body of a JSON string literal (the opening quote already
consumed), returning the string and the remaining input. -/
def parseStringBody : List Char → List Char → Option (String × List Char)
  | _, [] => none
  | acc, c :: rest =>
    if c == '\"' then some (String.mk acc.reverse, rest)
    else if c == '\\' then
      match rest with
      | [] => none
      | e :: rest2 =>
        match escChar e with
        | some ec => parseStringBody (ec :: acc) rest2
        | none => none
    else parseStringBody (c :: acc) rest

/-- Consume a run of decimal digits, accumulating their value. -/
def digitsToNat (acc : Nat) : List Char → (Nat × List Char)
  | [] => (acc, [])
  | c :: rest => if c.isDigit then digitsToNat (acc * 10 + (c.toNat - 48)) rest else (acc, c :: rest)

/-- Parse a JSON integer (optional minus sign, then digits). -/
def parseNum : List Char → Option (JVal × List Char)
  | '-' :: rest =>
    (match rest with
     | c :: _ =>
       if c.isDigit then
         match digitsToNat 0 rest with
         | (n, r) => some (JVal.jint (-(n : Int)), r)
       else none
     | [] => none)
  | rest =>
    (match rest with
     | c :: _ =>
       if c.isDigit then
         match digitsToNat 0 rest with
         | (n, r) => some (JVal.jint ((n : Int)), r)
       else none
     | [] => none)

/-- Parse a primitive JSON value (string, number, true, false, null). -/
def parsePrim : List Char → Option (JVal × List Char)
  | [] => none
  | c :: rest =>
    if c == '\"' then (parseStringBody [] rest).map (fun p => (JVal.jstr p.1, p.2))
    else if c == 't' then
      match rest with
      | 'r' :: 'u' :: 'e' :: r => some (JVal.jtrue, r)
      | _ => none
    else if c == 'f' then
      match rest with
      | 'a' :: 'l' :: 's' :: 'e' :: r => some (JVal.jfalse, r)
      | _ => none
    else if c == 'n' then
      match rest with
      | 'u' :: 'l' :: 'l' :: r => some (JVal.jnull, r)
      | _ => none
    else parseNum (c :: rest)

/-- Parse the field list of a JSON object, fuel-bounded; the opening brace is
already consumed and the input starts at the first key. -/
def parseFields : Nat → List (String × JVal) → List Char → Option (List (String × JVal) × List Char)
  | 0, _, _ => none
  | Nat.succ fuel, acc, l =>
    match skipWs l with
    | '\"' :: rest =>
      (match parseStringBody [] rest with
       | none => none
       | some (key, r1) =>
         match skipWs r1 with
         | ':' :: r2 =>
           (match parsePrim (skipWs r2) with
            | none => none
            | some (v, r3) =>
              match skipWs r3 with
              | ',' :: r4 => parseFields fuel ((key, v) :: acc) r4
              | '\x7d' :: r4 => some (((key, v) :: acc).reverse, r4)
              | _ => none)
         | _ => none)
    | _ => none

/-- Model of Python's `json.loads` on the classifier-interface fragment:
succeeds only when the whole input is a single JSON object with primitive
fields, or one primitive value. -/
def json_loads (s : String) : Option Json :=
  let cs := skipWs s.toList
  match cs with
  | '\x7b' :: rest =>
    (match skipWs rest with
     | '\x7d' :: r2 => if (skipWs r2).isEmpty then some (Json.obj []) else none
     | _ =>
       match parseFields (rest.length + 1) [] rest with
       | some (fields, r2) => if (skipWs r2).isEmpty then some (Json.obj fields) else none
       | none => none)
  | _ =>
    match parsePrim cs with
    | some (v, r) => if (skipWs r).isEmpty then some (Json.prim v) else none
    | none => none

/-- Dictionary field access for a parsed object (later duplicate keys win,
as for Python dict literals produced by `json.loads`). -/
def dget (d : List (String × JVal)) (k : String) : Option JVal :=
  (d.reverse.find? (fun p => p.1 == k)).map (fun p => p.2)

/-- Index of the first character satisfying `p`. -/
def firstIdx (p : Char → Bool) : List Char → Option Nat
  | [] => none
  | c :: rest => if p c then some 0 else (firstIdx p rest).map (fun i => i + 1)

/-- Index of the last character satisfying `p`. -/
def lastIdx (p : Char → Bool) (l : List Char) : Option Nat :=
  (firstIdx p (l.reverse)).map (fun k => l.length - 1 - k)

/-- Model of `re.search(r"\x7b.*\x7d", text, re.DOTALL)` in
`analyze_issue`: the leftmost match of the greedy pattern runs from the
first opening brace (that has a closing brace after it) to the last closing
brace of the whole text. -/
def extractJsonSpan (s : String) : Option String :=
  let cs := s.toList
  match firstIdx (fun c => c == '\x7b') cs, lastIdx (fun c => c == '\x7d') cs with
  | some i, some j => if i < j then some (String.mk ((cs.drop i).take (j - i + 1))) else none
  | _, _ => none

/-- Depth counter for the spec-side balanced-span scan. -/
def balancedSpan : Nat → List Char → List Char → Option String
  | _, _, [] => none
  | depth, acc, c :: rest =>
    if c == '\x7b' then balancedSpan (depth + 1) (c :: acc) rest
    else if c == '\x7d' then
      (match depth with
       | 0 => none
       | 1 => some (String.mk (c :: acc).reverse)
       | Nat.succ (Nat.succ d) => balancedSpan (Nat.succ d) (c :: acc) rest)
    else balancedSpan depth (c :: acc) rest

/-- Scan for the opening brace of the first balanced span. -/
def firstBalancedAux : List Char → Option String
  | [] => none
  | c :: rest => if c == '\x7b' then balancedSpan 1 [c] rest else firstBalancedAux rest

/-- Modelled from the spec: the "first balanced brace span" embedded in
free text, which the spec says the second parsing tier extracts.  The
source instead uses the greedy regex modelled by `extractJsonSpan`; this
definition exists only to compare the two behaviours. -/
def firstBalancedSpan (s : String) : Option String := firstBalancedAux s.toList

/-- Shape of a status-200 Gemini response body: either the
candidates/content/parts chain is missing or empty, or it yields the reply
text `result["candidates"][0]["content"]["parts"][0]["text"]`. -/
inductive GeminiBody where
  | noText : GeminiBody
  | text : String → GeminiBody
deriving Repr, DecidableEq

/-- Behaviour of the classifier transport for one `analyze_issue` call:
an exception while issuing the request or decoding the response body, an
`asyncio.TimeoutError`, or an HTTP response with a status code and (for
status 200) the candidate content. -/
inductive Transport where
  | exn : Transport
  | timeout : Transport
  | httpStatus : Nat → GeminiBody → Transport
deriving Repr, DecidableEq

/-- Fields of `WashingMachineAnalyzer._fallback_response`. -/
def fallback_response : List (String × JVal) :=
  [("action", JVal.jstr "create_ticket"),
   ("response", JVal.jstr "I\x27m having trouble analyzing your issue right now. Let me create a support ticket so our team can help you directly."),
   ("severity", JVal.jstr "medium"),
   ("category", JVal.jstr "other"),
   ("urgency", JVal.jstr "normal")]

/-- Two-tier payload parse of `analyze_issue` lines 116-127: strict
`json.loads` of the whole reply first; on failure, the greedy brace span is
extracted and parsed.  `none` covers both the no-span branch and the case
where parsing the extracted span raises `json.JSONDecodeError`, which the
outer `except Exception` handler turns into the fallback. -/
def parsePayload (text : String) : Option Json :=
  match json_loads text with
  | some v => some v
  | none =>
    match extractJsonSpan text with
    | some frag => json_loads frag
    | none => none

/-- Model of `WashingMachineAnalyzer.analyze_issue`: every transport
failure, non-200 status, missing candidate text, or unparseable payload is
converted to the fallback dictionary; a successfully parsed payload is
returned as-is. -/
def analyze_issue : Transport → Json
  | Transport.exn => Json.obj fallback_response
  | Transport.timeout => Json.obj fallback_response
  | Transport.httpStatus code body =>
    if code ≠ 200 then Json.obj fallback_response
    else
      match body with
      | GeminiBody.noText => Json.obj fallback_response
      | GeminiBody.text s =>
        match parsePayload s with
        | some v => v
        | none => Json.obj fallback_response

/-- Transport behaviours that the classifier contract counts as failures:
request exception, timeout, non-success status, missing candidate text, or
a payload neither tier can parse. -/
def classifyFails : Transport → Bool
  | Transport.exn => true
  | Transport.timeout => true
  | Transport.httpStatus code body =>
    if code ≠ 200 then true
    else
      match body with
      | GeminiBody.noText => true
      | GeminiBody.text s => (parsePayload s).isNone

/-- Enumerated-field invariant claimed for every returned classification:
the claim's sets for action, severity, urgency and category. -/
def validClassification (j : Json) : Bool :=
  match j with
  | Json.obj d =>
    (match dget d "action" with
     | some (JVal.jstr a) => a == "provide_solution" || a == "create_ticket" || a == "resolve" || a == "escalate"
     | _ => false) &&
    (match dget d "severity" with
     | some (JVal.jstr sv) => sv == "low" || sv == "medium" || sv == "high"
     | _ => false) &&
    (match dget d "urgency" with
     | some (JVal.jstr u) => u == "normal" || u == "high"
     | _ => false) &&
    (match dget d "category" with
     | some (JVal.jstr ct) => ct == "detergent" || ct == "mechanical" || ct == "electrical" || ct == "door" || ct == "cleaning" || ct == "drainage" || ct == "other"
     | _ => false)
  | _ => false


/-- Character-wise model of Python `str.title()`: an alphabetic character
is uppercased when the previous character is not alphabetic and lowercased
otherwise. -/
def pyTitleGo : Bool → List Char → List Char
  | _, [] => []
  | prevAlpha, c :: rest =>
    if c.isAlpha then
      (if prevAlpha then c.toLower else c.toUpper) :: pyTitleGo true rest
    else c :: pyTitleGo false rest

/-- Python `str.title()` on the ASCII fragment used by the bot. -/
def pyTitle (s : String) : String := String.mk (pyTitleGo false s.toList)

/-- Python `str.lower()` on the ASCII fragment used by the bot. -/
def pyLower (s : String) : String := String.mk (s.toList.map Char.toLower)

/-- Python `str.strip()`: drop leading and trailing whitespace. -/
def pyStrip (s : String) : String :=
  String.mk (((s.toList.dropWhile isWsChar).reverse.dropWhile isWsChar).reverse)

/-- Python `str()` of a primitive JSON value, as interpolated into the
ticket description f-string. -/
def pyStr : JVal → String
  | JVal.jstr s => s
  | JVal.jint n => toString n
  | JVal.jtrue => "True"
  | JVal.jfalse => "False"
  | JVal.jnull => "None"

/-- Python `.title()` called on a JSON value: only strings have the
method; anything else raises `AttributeError`. -/
def jvalTitle : JVal → Option String
  | JVal.jstr s => some (pyTitle s)
  | _ => none

/-- Exceptions of the modelled Python fragment. -/
inductive PyErr where
  | typeError : PyErr
  | keyError : PyErr
  | attributeError : PyErr
deriving Repr, DecidableEq

/-- Message author fields the bot reads: `id`, `display_name`, `mention`. -/
structure Author where
  id : Nat
  display_name : String
  mention : String
deriving Repr, DecidableEq

/-- Entry of `self.pending_tickets`, registered by
`send_solution_response` (line 427): owner id, the original message
content, and the stored analysis. -/
structure PendingTicket where
  user_id : Nat
  issue : String
  analysis : List (String × JVal)
deriving Repr, DecidableEq

/-- Row of the local `tickets` table written by
`TicketDatabase.save_ticket`; the wall-clock `created_at`/`updated_at`
columns are outside the model. -/
structure TicketRow where
  ticket_id : String
  user_id : String
  username : String
  issue_description : String
  severity : JVal
  category : JVal
deriving Repr, DecidableEq

/-- Mutable bot state: the local ticket table, the per-user latest-ticket
cache `self.user_tickets`, and the escalation registry
`self.pending_tickets`. -/
structure BotState where
  db : List TicketRow
  user_tickets : List (Nat × String)
  pending_tickets : List (Nat × PendingTicket)
deriving Repr, DecidableEq

/-- Dictionary lookup in a key-unique association list. -/
def aget {ν : Type} (l : List (Nat × ν)) (k : Nat) : Option ν :=
  (l.find? (fun p => p.1 == k)).map (fun p => p.2)

/-- Dictionary assignment `l[k] = v` preserving key uniqueness. -/
def aset {ν : Type} (l : List (Nat × ν)) (k : Nat) (v : ν) : List (Nat × ν) :=
  l.filter (fun p => !(p.1 == k)) ++ [(k, v)]

/-- Dictionary deletion `del l[k]`. -/
def adel {ν : Type} (l : List (Nat × ν)) (k : Nat) : List (Nat × ν) :=
  l.filter (fun p => !(p.1 == k))

/-- Lookup in the local ticket table by primary key. -/
def dbLookup (db : List TicketRow) (tid : String) : Option TicketRow :=
  db.find? (fun r => r.ticket_id == tid)

/-- `INSERT OR REPLACE` keyed by `ticket_id`. -/
def dbUpsert (db : List TicketRow) (row : TicketRow) : List TicketRow :=
  db.filter (fun r => !(r.ticket_id == row.ticket_id)) ++ [row]

/-- Fields of the Mantis request body built by
`MantisHubIntegration.create_ticket` (the model keeps the fields the spec
claims discuss; `category` and `project` are constants in the source). -/
structure MantisTicketData where
  summary : String
  description : String
  severity_name : String
  additional_information : String
deriving Repr, DecidableEq

/-- Severity translation `severity_map.get(severity, "minor")` of
`MantisHubIntegration.create_ticket`. -/
def severity_map_get (v : JVal) : String :=
  if v == JVal.jstr "low" then "trivial"
  else if v == JVal.jstr "medium" then "minor"
  else if v == JVal.jstr "high" then "major"
  else "minor"

/-- Request body of `MantisHubIntegration.create_ticket`: the summary is
the `title` argument verbatim and the severity goes through the fixed
three-level map. -/
def mantis_ticket_data (title description : String) (severity : JVal) (user_id : Option String) : MantisTicketData :=
  ⟨title, description,
   severity_map_get severity,
   match user_id with
   | some u => "Discord User ID: " ++ u
   | none => ""⟩

/-- Argument tuple of the `self.mantis.create_ticket(...)` call issued by
`create_support_ticket` (lines 452-458). -/
structure StoreCall where
  title : String
  description : String
  severity : JVal
  category : JVal
  user_id : String
deriving Repr, DecidableEq

/-- Result rendered by `create_support_ticket`: the success embed carrying
the new ticket id, or the failure embed. -/
inductive CreateResult where
  | created : String → CreateResult
  | failed : CreateResult
deriving Repr, DecidableEq

/-- Ticket description composite of `create_support_ticket` lines 440-449:
the f-string (with its leading newline and trailing indentation) passed
through `.strip()`. -/
def ticket_description (author : Author) (issue_description : String)
    (analysis : List (String × JVal)) (channel : Option String) : String :=
  pyStrip ("\n**User:** " ++ author.mention ++ " (" ++ author.display_name ++ ")\n" ++
    "**Issue:** " ++ issue_description ++ "\n" ++
    "**Severity:** " ++ pyStr ((dget analysis "severity").getD (JVal.jstr "medium")) ++ "\n" ++
    "**Category:** " ++ pyStr ((dget analysis "category").getD (JVal.jstr "general")) ++ "\n" ++
    "**Urgency:** " ++ pyStr ((dget analysis "urgency").getD (JVal.jstr "normal")) ++ "\n" ++
    "**Channel:** " ++ (channel.getD "DM") ++ "\n\n" ++
    "**AI Analysis:** " ++ pyStr ((dget analysis "response").getD (JVal.jstr "No additional analysis available")) ++
    "\n        ")

/-- Model of `DiscordWashingMachineBot.create_support_ticket`.  Returns
the state after the call (Python mutations survive a later exception), the
Mantis call issued if control reached it, and either the rendered result
or the exception that escaped.  `mantisResult` is the outcome of
`MantisHubIntegration.create_ticket`, whose `None` covers non-201 status,
timeout, request exception and missing configuration.  The first
`.title()` is line 437 on the category; after a successful store call the
success embed evaluates `.title()` on the severity (line 482) only after
the database row and the latest-ticket pointer are written. -/
def create_support_ticket (st : BotState) (author : Author) (channel : Option String)
    (issue_description : String) (analysis : List (String × JVal)) (mantisResult : Option String) :
    BotState × Option StoreCall × Except PyErr CreateResult :=
  let category := (dget analysis "category").getD (JVal.jstr "general")
  match jvalTitle category with
  | none => (st, none, Except.error PyErr.attributeError)
  | some catTitle =>
    let title := "Washing Machine Issue - " ++ catTitle
    let description := ticket_description author issue_description analysis channel
    let call : StoreCall := ⟨title, description, (dget analysis "severity").getD (JVal.jstr "medium"), category, toString author.id⟩
    match mantisResult with
    | some ticket_id =>
      let row : TicketRow := ⟨ticket_id, toString author.id, author.display_name, issue_description,
        (dget analysis "severity").getD (JVal.jstr "medium"), category⟩
      let st1 : BotState := { st with db := dbUpsert st.db row,
                                      user_tickets := aset st.user_tickets author.id ticket_id }
      match jvalTitle ((dget analysis "severity").getD (JVal.jstr "medium")) with
      | none => (st1, some call, Except.error PyErr.attributeError)
      | some _ => (st1, some call, Except.ok (CreateResult.created ticket_id))
    | none => (st, some call, Except.ok CreateResult.failed)

/-- Model of `DiscordWashingMachineBot.send_solution_response`: the embed
reads `analysis["response"]`, `analysis["severity"].title()` and
`analysis["category"].title()` (lines 405-417) before the pending ticket
is registered under the reply message id; any raise aborts before the
registration. -/
def send_solution_response (st : BotState) (author : Author) (origContent : String)
    (msgId : Nat) (analysis : List (String × JVal)) : BotState × Except PyErr Unit :=
  match dget analysis "response" with
  | none => (st, Except.error PyErr.keyError)
  | some _ =>
    match dget analysis "severity" with
    | none => (st, Except.error PyErr.keyError)
    | some sev =>
      match jvalTitle sev with
      | none => (st, Except.error PyErr.attributeError)
      | some _ =>
        match dget analysis "category" with
        | none => (st, Except.error PyErr.keyError)
        | some cat =>
          match jvalTitle cat with
          | none => (st, Except.error PyErr.attributeError)
          | some _ =>
            ({ st with pending_tickets := aset st.pending_tickets msgId ⟨author.id, origContent, analysis⟩ },
             Except.ok ())

/-- Greeting short-circuit of `handle_support_request` line 366:
`not content or content.lower() in ["hi", "hello", "help"]`. -/
def isGreeting (content : String) : Bool :=
  content == "" || pyLower content == "hi" || pyLower content == "hello" || pyLower content == "help"

/-- Replies rendered by `handle_support_request`: the help embed for
greetings, the troubleshooting embed, the ticket-created embed, the
ticket-creation-failed embed, or the generic error reply of the
`except` handler (line 399). -/
inductive HandleOutcome where
  | helpMessage : HandleOutcome
  | solution : HandleOutcome
  | ticketCreated : String → HandleOutcome
  | ticketFailed : HandleOutcome
  | errorReply : HandleOutcome
deriving Repr, DecidableEq

/-- Model of `DiscordWashingMachineBot.handle_support_request`.
`origContent` is `message.content` and `content` the mention-stripped
text (the stripping itself belongs to the chat transport).  The try block
covers the classifier call and both branches; any `PyErr` is caught at
line 397 and answered with the generic error reply, with state mutations
made before the raise preserved. -/
def handle_support_request (st : BotState) (author : Author) (channel : Option String)
    (msgId : Nat) (origContent content : String) (t : Transport) (mantisResult : Option String) :
    BotState × Option StoreCall × HandleOutcome :=
  if isGreeting content then (st, none, HandleOutcome.helpMessage)
  else
    match analyze_issue t with
    | Json.prim _ => (st, none, HandleOutcome.errorReply)
    | Json.obj d =>
      match dget d "action" with
      | none => (st, none, HandleOutcome.errorReply)
      | some a =>
        if a == JVal.jstr "provide_solution" then
          match send_solution_response st author origContent msgId d with
          | (st1, Except.ok _) => (st1, none, HandleOutcome.solution)
          | (st1, Except.error _) => (st1, none, HandleOutcome.errorReply)
        else
          match create_support_ticket st author channel content d mantisResult with
          | (st1, call, Except.ok (CreateResult.created tid)) => (st1, call, HandleOutcome.ticketCreated tid)
          | (st1, call, Except.ok CreateResult.failed) => (st1, call, HandleOutcome.ticketFailed)
          | (st1, call, Except.error _) => (st1, call, HandleOutcome.errorReply)

/-- Observable outcome of `on_reaction_add`: ignored (bot reaction or
wrong emoji), no registry entry for the message (the handler silently
does nothing), entry owned by someone else (silently does nothing),
escalation that ran `create_support_ticket` to completion, or an
exception escaping the handler before the registry deletion. -/
inductive ReactionOutcome where
  | ignored : ReactionOutcome
  | unknownOffer : ReactionOutcome
  | notOwner : ReactionOutcome
  | escalated : CreateResult → ReactionOutcome
  | raisedDuring : PyErr → ReactionOutcome
deriving Repr, DecidableEq

/-- Model of `DiscordWashingMachineBot.on_reaction_add` (lines 497-521):
after the emoji/bot guard it looks up `pending_tickets[message.id]`,
checks ownership, awaits `create_support_ticket` on a synthetic message
(author is the reactor, content the stored issue), and only then executes
`del pending_tickets[message.id]`.  An exception during the create call
propagates out before the deletion. -/
def on_reaction_add (st : BotState) (reactorIsBot : Bool) (emoji : String) (msgId : Nat)
    (reactor : Author) (channel : Option String) (mantisResult : Option String) :
    BotState × Option StoreCall × ReactionOutcome :=
  if reactorIsBot || emoji != "🎫" then (st, none, ReactionOutcome.ignored)
  else
    match aget st.pending_tickets msgId with
    | none => (st, none, ReactionOutcome.unknownOffer)
    | some info =>
      if info.user_id != reactor.id then (st, none, ReactionOutcome.notOwner)
      else
        match create_support_ticket st reactor channel info.issue info.analysis mantisResult with
        | (st1, call, Except.ok r) =>
          ({ st1 with pending_tickets := adel st1.pending_tickets msgId }, call, ReactionOutcome.escalated r)
        | (st1, call, Except.error e) => (st1, call, ReactionOutcome.raisedDuring e)

/-- Registry contents at the moment `on_reaction_add` issues the
`create_support_ticket` call (line 509), reached only when the guard,
lookup and ownership check pass: the deletion is line 521, after the
await, so the registry handed to the create path is still
`st.pending_tickets`. -/
def registry_at_store_call (st : BotState) (reactorIsBot : Bool) (emoji : String)
    (msgId : Nat) (reactor : Author) : Option (List (Nat × PendingTicket)) :=
  if reactorIsBot || emoji != "🎫" then none
  else
    match aget st.pending_tickets msgId with
    | none => none
    | some info =>
      if info.user_id != reactor.id then none else some st.pending_tickets

/-- Test whether a field, when present, is a string (so that `.title()`
or the success embed cannot raise on it). -/
def strOrAbsent (d : List (String × JVal)) (k : String) : Bool :=
  match dget d k with
  | none => true
  | some (JVal.jstr _) => true
  | some _ => false

/-- Analyses on which the ticket-creation path runs to completion without
raising: category and severity, when present, are strings. -/
def safeAnalysis (d : List (String × JVal)) : Bool :=
  strOrAbsent d "category" && strOrAbsent d "severity"

/-- Payloads on which `handle_support_request` cannot raise: an object
with an `action` field whose chosen branch finds the fields it reads with
the types it needs. -/
def handleSafe (j : Json) : Bool :=
  match j with
  | Json.prim _ => false
  | Json.obj d =>
    match dget d "action" with
    | none => false
    | some a =>
      if a == JVal.jstr "provide_solution" then
        (dget d "response").isSome &&
        (match dget d "severity" with
         | some (JVal.jstr _) => true
         | _ => false) &&
        (match dget d "category" with
         | some (JVal.jstr _) => true
         | _ => false)
      else safeAnalysis d

/-- Outcomes that are one of the three orchestrator results of the spec:
guidance, ticket created, ticket creation failed. -/
def isOrchestratorResult : HandleOutcome → Bool
  | HandleOutcome.solution => true
  | HandleOutcome.ticketCreated _ => true
  | HandleOutcome.ticketFailed => true
  | _ => false


theorem find?_filter_ne_none {ν : Type} (l : List (Nat × ν)) (k : Nat) :
    (l.filter (fun p => !(p.1 == k))).find? (fun p => p.1 == k) = none := by
  rw [List.find?_eq_none]
  intro x hx
  have hpx := List.of_mem_filter hx
  simpa using hpx

theorem aget_aset {ν : Type} (l : List (Nat × ν)) (k : Nat) (v : ν) :
    aget (aset l k v) k = some v := by
  simp [aget, aset, List.find?_append, find?_filter_ne_none, List.find?]

theorem aget_adel {ν : Type} (l : List (Nat × ν)) (k : Nat) :
    aget (adel l k) k = none := by
  simp [aget, adel, find?_filter_ne_none]

theorem dbLookup_dbUpsert (db : List TicketRow) (row : TicketRow) :
    dbLookup (dbUpsert db row) row.ticket_id = some row := by
  have h1 : (db.filter (fun r => !(r.ticket_id == row.ticket_id))).find?
      (fun r => r.ticket_id == row.ticket_id) = none := by
    rw [List.find?_eq_none]
    intro x hx
    have hpx := List.of_mem_filter hx
    simpa using hpx
  simp [dbLookup, dbUpsert, List.find?_append, h1, List.find?]

theorem create_pending_unchanged (st : BotState) (author : Author) (channel : Option String)
    (issue : String) (analysis : List (String × JVal)) (m : Option String) :
    (create_support_ticket st author channel issue analysis m).1.pending_tickets = st.pending_tickets := by
  unfold create_support_ticket
  cases h1 : jvalTitle ((dget analysis "category").getD (JVal.jstr "general")) with
  | none => simp [h1]
  | some ct =>
    cases m with
    | none => simp [h1]
    | some tid =>
      cases h2 : jvalTitle ((dget analysis "severity").getD (JVal.jstr "medium")) with
      | none => simp [h1, h2]
      | some _ => simp [h1, h2]

theorem create_components_some (st : BotState) (author : Author) (channel : Option String)
    (issue : String) (analysis : List (String × JVal)) (tid : String)
    (hcat : strOrAbsent analysis "category" = true)
    (hsev : strOrAbsent analysis "severity" = true) :
    (create_support_ticket st author channel issue analysis (some tid)).2.2 =
      Except.ok (CreateResult.created tid) ∧
    (create_support_ticket st author channel issue analysis (some tid)).1.db =
      dbUpsert st.db ⟨tid, toString author.id, author.display_name, issue,
        (dget analysis "severity").getD (JVal.jstr "medium"),
        (dget analysis "category").getD (JVal.jstr "general")⟩ ∧
    (create_support_ticket st author channel issue analysis (some tid)).1.user_tickets =
      aset st.user_tickets author.id tid := by
  have hc : ∃ s, (dget analysis "category").getD (JVal.jstr "general") = JVal.jstr s := by
    unfold strOrAbsent at hcat
    cases h1 : dget analysis "category" with
    | none => exact ⟨"general", by simp [h1]⟩
    | some v =>
      cases v with
      | jstr s => exact ⟨s, by simp [h1]⟩
      | jint n => rw [h1] at hcat; simp at hcat
      | jtrue => rw [h1] at hcat; simp at hcat
      | jfalse => rw [h1] at hcat; simp at hcat
      | jnull => rw [h1] at hcat; simp at hcat
  have hs : ∃ s, (dget analysis "severity").getD (JVal.jstr "medium") = JVal.jstr s := by
    unfold strOrAbsent at hsev
    cases h1 : dget analysis "severity" with
    | none => exact ⟨"medium", by simp [h1]⟩
    | some v =>
      cases v with
      | jstr s => exact ⟨s, by simp [h1]⟩
      | jint n => rw [h1] at hsev; simp at hsev
      | jtrue => rw [h1] at hsev; simp at hsev
      | jfalse => rw [h1] at hsev; simp at hsev
      | jnull => rw [h1] at hsev; simp at hsev
  obtain ⟨cs, hcs⟩ := hc
  obtain ⟨ss, hss⟩ := hs
  unfold create_support_ticket
  rw [hcs, hss]
  simp [jvalTitle]

theorem create_components_none (st : BotState) (author : Author) (channel : Option String)
    (issue : String) (analysis : List (String × JVal))
    (hcat : strOrAbsent analysis "category" = true) :
    (create_support_ticket st author channel issue analysis none).2.2 =
      Except.ok CreateResult.failed ∧
    (create_support_ticket st author channel issue analysis none).1 = st := by
  have hc : ∃ s, (dget analysis "category").getD (JVal.jstr "general") = JVal.jstr s := by
    unfold strOrAbsent at hcat
    cases h1 : dget analysis "category" with
    | none => exact ⟨"general", by simp [h1]⟩
    | some v =>
      cases v with
      | jstr s => exact ⟨s, by simp [h1]⟩
      | jint n => rw [h1] at hcat; simp at hcat
      | jtrue => rw [h1] at hcat; simp at hcat
      | jfalse => rw [h1] at hcat; simp at hcat
      | jnull => rw [h1] at hcat; simp at hcat
  obtain ⟨cs, hcs⟩ := hc
  unfold create_support_ticket
  rw [hcs]
  simp [jvalTitle]

/-- Reply text that parses as a JSON object whose field values are outside
every enumerated set of the spec. -/
def badPayloadText : String :=
  "\x7b\"action\": \"reboot\", \"response\": \"try later\", \"severity\": \"catastrophic\", \"category\": \"plumbing\", \"urgency\": \"asap\"\x7d"

/-- C1: the claim that a payload that parses but carries out-of-range field
values is normalized to the fallback is false: `analyze_issue` returns any
successfully parsed payload verbatim, with no field validation.  At this
concrete reply the returned dictionary violates all four enumerations and
is not the fallback. -/
theorem classifier_payload_returned_verbatim :
    analyze_issue (Transport.httpStatus 200 (GeminiBody.text badPayloadText)) =
      Json.obj [("action", JVal.jstr "reboot"), ("response", JVal.jstr "try later"),
        ("severity", JVal.jstr "catastrophic"), ("category", JVal.jstr "plumbing"),
        ("urgency", JVal.jstr "asap")] ∧
    validClassification (analyze_issue (Transport.httpStatus 200 (GeminiBody.text badPayloadText))) = false ∧
    analyze_issue (Transport.httpStatus 200 (GeminiBody.text badPayloadText)) ≠ Json.obj fallback_response := by
  refine ⟨by decide, by decide, by decide⟩

/-- C1 (amended): every classification the adapter returns either has all
four fields in the enumerated sets (this covers every failure path, which
yields the fallback) or is a successfully parsed upstream payload returned
verbatim, without normalization. -/
theorem classifier_result_valid_or_verbatim (t : Transport) :
    validClassification (analyze_issue t) = true ∨
    (∃ s v, t = Transport.httpStatus 200 (GeminiBody.text s) ∧ parsePayload s = some v ∧
      analyze_issue t = v) := by
  have hfb : validClassification (Json.obj fallback_response) = true := by decide
  cases t with
  | exn => exact Or.inl hfb
  | timeout => exact Or.inl hfb
  | httpStatus code body =>
    by_cases hc : code = 200
    · subst hc
      cases body with
      | noText => exact Or.inl (by simpa [analyze_issue] using hfb)
      | text s =>
        cases hp : parsePayload s with
        | none => exact Or.inl (by simpa [analyze_issue, hp] using hfb)
        | some v => exact Or.inr ⟨s, v, rfl, hp, by simp [analyze_issue, hp]⟩
    · exact Or.inl (by simpa [analyze_issue, hc] using hfb)

/-- C2: on every transport behaviour the classifier contract counts as a
failure — request exception, timeout, non-200 status, missing candidate
text, or a payload neither parsing tier accepts — `analyze_issue` returns
exactly the fixed fallback dictionary (and, being a total function of the
behaviour, never raises outward). -/
theorem classifier_failure_yields_fallback (t : Transport) (h : classifyFails t = true) :
    analyze_issue t = Json.obj fallback_response := by
  cases t with
  | exn => rfl
  | timeout => rfl
  | httpStatus code body =>
    by_cases hc : code = 200
    · subst hc
      cases body with
      | noText => simp [analyze_issue]
      | text s =>
        have hp : parsePayload s = none := by
          have h2 : (parsePayload s).isNone = true := by simpa [classifyFails] using h
          simpa [Option.isNone_iff_eq_none] using h2
        simp [analyze_issue, hp]
    · simp [analyze_issue, hc]

/-- Witness for C2 at the timeout behaviour. -/
theorem classifier_failure_yields_fallback_witness :
    classifyFails Transport.timeout = true ∧
    analyze_issue Transport.timeout = Json.obj fallback_response :=
  ⟨rfl, classifier_failure_yields_fallback Transport.timeout rfl⟩

/-- Reply text with two embedded objects: the first balanced span parses,
but the greedy regex span does not. -/
def mixedReplyText : String := "\x7b\"a\": \"1\"\x7d x \x7b\"b\": \"2\"\x7d"

/-- C6: the claim that the second parsing tier extracts the first balanced
brace span is false: the source's `re.search(r"\x7b.*\x7d", ...)` is
greedy, spanning from the first opening to the last closing brace.  On
this reply the strict tier fails, the spec's first balanced span parses
fine, yet `analyze_issue` still returns the fallback because the greedy
span is unparseable — so it is also false that the fallback is produced
only when both of the claimed attempts fail. -/
theorem embedded_parse_not_first_balanced :
    json_loads mixedReplyText = none ∧
    firstBalancedSpan mixedReplyText = some "\x7b\"a\": \"1\"\x7d" ∧
    json_loads "\x7b\"a\": \"1\"\x7d" = some (Json.obj [("a", JVal.jstr "1")]) ∧
    extractJsonSpan mixedReplyText = some mixedReplyText ∧
    analyze_issue (Transport.httpStatus 200 (GeminiBody.text mixedReplyText)) =
      Json.obj fallback_response := by
  refine ⟨rfl, rfl, rfl, rfl, rfl⟩

/-- C6 (amended): the parse is two-tier, but the second tier parses the
span from the first opening brace to the last closing brace of the text
(the greedy regex), not the first balanced span; the fallback is produced
exactly when the strict parse and that greedy-span parse both fail. -/
theorem two_tier_parse_greedy_span (s : String) :
    (∀ v, json_loads s = some v →
      analyze_issue (Transport.httpStatus 200 (GeminiBody.text s)) = v) ∧
    (∀ f v, json_loads s = none → extractJsonSpan s = some f → json_loads f = some v →
      analyze_issue (Transport.httpStatus 200 (GeminiBody.text s)) = v) ∧
    (json_loads s = none → (∀ f, extractJsonSpan s = some f → json_loads f = none) →
      analyze_issue (Transport.httpStatus 200 (GeminiBody.text s)) = Json.obj fallback_response) := by
  refine ⟨?_, ?_, ?_⟩
  · intro v hv
    simp [analyze_issue, parsePayload, hv]
  · intro f v h1 h2 h3
    simp [analyze_issue, parsePayload, h1, h2, h3]
  · intro h1 h2
    cases he : extractJsonSpan s with
    | none => simp [analyze_issue, parsePayload, h1, he]
    | some f => simp [analyze_issue, parsePayload, h1, he, h2 f he]

/-- Witness for C6 (amended): a reply whose strict parse fails and whose
greedy span parses. -/
theorem two_tier_parse_greedy_span_witness :
    analyze_issue (Transport.httpStatus 200 (GeminiBody.text "x \x7b\"a\": \"1\"\x7d")) =
      Json.obj [("a", JVal.jstr "1")] :=
  (two_tier_parse_greedy_span "x \x7b\"a\": \"1\"\x7d").2.1 "\x7b\"a\": \"1\"\x7d"
    (Json.obj [("a", JVal.jstr "1")]) rfl rfl rfl

theorem send_solution_registers_safe (st : BotState) (author : Author) (origContent : String)
    (msgId : Nat) (analysis : List (String × JVal)) (st1 : BotState)
    (h : send_solution_response st author origContent msgId analysis = (st1, Except.ok ())) :
    safeAnalysis analysis = true ∧
    aget st1.pending_tickets msgId = some ⟨author.id, origContent, analysis⟩ := by
  unfold send_solution_response at h
  rcases h1 : dget analysis "response" with _ | rv
  · rw [h1] at h; simp at h
  rw [h1] at h
  rcases h2 : dget analysis "severity" with _ | sv
  · rw [h2] at h; simp at h
  rw [h2] at h
  cases sv with
  | jstr ss =>
    simp only [jvalTitle] at h
    rcases h3 : dget analysis "category" with _ | cv
    · rw [h3] at h; simp at h
    rw [h3] at h
    cases cv with
    | jstr cs =>
      simp only [jvalTitle] at h
      have hst : st1 = { st with pending_tickets := aset st.pending_tickets msgId ⟨author.id, origContent, analysis⟩ } := by
        have := congrArg Prod.fst h
        simpa using this.symm
      constructor
      · simp [safeAnalysis, strOrAbsent, h2, h3]
      · rw [hst]
        simpa using aget_aset st.pending_tickets msgId (⟨author.id, origContent, analysis⟩ : PendingTicket)
    | jint n => simp [jvalTitle] at h
    | jtrue => simp [jvalTitle] at h
    | jfalse => simp [jvalTitle] at h
    | jnull => simp [jvalTitle] at h
  | jint n => simp [jvalTitle] at h
  | jtrue => simp [jvalTitle] at h
  | jfalse => simp [jvalTitle] at h
  | jnull => simp [jvalTitle] at h

/-- C3: once an escalation reaction by the owner has been handled, a
second identical reaction finds the registry entry gone: the first call
runs the ticket-creation path (`escalated`), the second finds no entry
(the silent no-op the spec surfaces as UnknownOffer) and leaves the state
untouched — so at most one of the two calls can create a ticket.  The
`hsafe` hypothesis holds for every offer the bot itself registers, by
`send_solution_registers_safe`. -/
theorem escalate_twice_second_unknown
    (st : BotState) (msgId : Nat) (reactor : Author) (channel : Option String)
    (m1 m2 : Option String) (info : PendingTicket)
    (hfind : aget st.pending_tickets msgId = some info)
    (howner : info.user_id = reactor.id)
    (hsafe : safeAnalysis info.analysis = true) :
    (∃ r, (on_reaction_add st false "🎫" msgId reactor channel m1).2.2 = ReactionOutcome.escalated r) ∧
    on_reaction_add (on_reaction_add st false "🎫" msgId reactor channel m1).1 false "🎫" msgId reactor channel m2 =
      ((on_reaction_add st false "🎫" msgId reactor channel m1).1, none, ReactionOutcome.unknownOffer) := by
  have hsafe2 : strOrAbsent info.analysis "category" = true ∧ strOrAbsent info.analysis "severity" = true := by
    simpa [safeAnalysis, Bool.and_eq_true] using hsafe
  have hok : ∃ r, (create_support_ticket st reactor channel info.issue info.analysis m1).2.2 = Except.ok r := by
    cases m1 with
    | some tid =>
      exact ⟨CreateResult.created tid,
        (create_components_some st reactor channel info.issue info.analysis tid hsafe2.1 hsafe2.2).1⟩
    | none =>
      exact ⟨CreateResult.failed,
        (create_components_none st reactor channel info.issue info.analysis hsafe2.1).1⟩
  obtain ⟨r, hr⟩ := hok
  rcases hcr : create_support_ticket st reactor channel info.issue info.analysis m1 with ⟨st1, call, res⟩
  rw [hcr] at hr
  simp only at hr
  subst hr
  have hpend : st1.pending_tickets = st.pending_tickets := by
    have := create_pending_unchanged st reactor channel info.issue info.analysis m1
    rw [hcr] at this
    simpa using this
  have hfirst : on_reaction_add st false "🎫" msgId reactor channel m1 =
      ({ st1 with pending_tickets := adel st1.pending_tickets msgId }, call, ReactionOutcome.escalated r) := by
    simp [on_reaction_add, hfind, howner, hcr]
  have hsecond : on_reaction_add { st1 with pending_tickets := adel st1.pending_tickets msgId } false "🎫" msgId reactor channel m2 =
      ({ st1 with pending_tickets := adel st1.pending_tickets msgId }, none, ReactionOutcome.unknownOffer) := by
    simp [on_reaction_add, aget_adel]
  refine ⟨⟨r, by rw [hfirst]⟩, ?_⟩
  rw [hfirst]
  exact hsecond

/-- Analysis stored with a demo escalation offer. -/
def demoAnalysis : List (String × JVal) :=
  [("action", JVal.jstr "provide_solution"), ("response", JVal.jstr "clean the filter"),
   ("severity", JVal.jstr "low"), ("category", JVal.jstr "drainage"), ("urgency", JVal.jstr "normal")]

/-- Demo escalation offer owned by user 7. -/
def demoInfo : PendingTicket := ⟨7, "machine is noisy", demoAnalysis⟩

/-- Demo reactor who owns the offer. -/
def demoReactor : Author := ⟨7, "alice", "@alice"⟩

/-- Demo bot state with one registered offer under message id 1. -/
def demoState : BotState := ⟨[], [], [(1, demoInfo)]⟩

/-- Witness for C3 at a concrete registered offer. -/
theorem escalate_twice_second_unknown_witness :
    (∃ r, (on_reaction_add demoState false "🎫" 1 demoReactor none (some "T-1")).2.2 = ReactionOutcome.escalated r) ∧
    on_reaction_add (on_reaction_add demoState false "🎫" 1 demoReactor none (some "T-1")).1 false "🎫" 1 demoReactor none (some "T-2") =
      ((on_reaction_add demoState false "🎫" 1 demoReactor none (some "T-1")).1, none, ReactionOutcome.unknownOffer) :=
  escalate_twice_second_unknown demoState 1 demoReactor none (some "T-1") (some "T-2") demoInfo
    (by decide) (by decide) (by decide)

/-- C4: a tickets reaction on a registered offer by anyone but the owner
takes the silent no-op branch the spec surfaces as NotOwner: no store
call is issued, no ticket is created, and the state — in particular the
registry entry — is exactly unchanged. -/
theorem escalate_non_owner_rejected
    (st : BotState) (msgId : Nat) (reactor : Author) (channel : Option String)
    (m : Option String) (info : PendingTicket)
    (hfind : aget st.pending_tickets msgId = some info)
    (howner : info.user_id ≠ reactor.id) :
    on_reaction_add st false "🎫" msgId reactor channel m = (st, none, ReactionOutcome.notOwner) := by
  have hbne : (info.user_id != reactor.id) = true := by simpa using howner
  simp [on_reaction_add, hfind, hbne]

/-- Witness for C4: user 9 reacting on user 7's offer. -/
theorem escalate_non_owner_rejected_witness :
    on_reaction_add demoState false "🎫" 1 ⟨9, "bob", "@bob"⟩ none (some "T-1") =
      (demoState, none, ReactionOutcome.notOwner) :=
  escalate_non_owner_rejected demoState 1 ⟨9, "bob", "@bob"⟩ none (some "T-1") demoInfo
    (by decide) (by decide)

/-- C5: the claim that the offer is removed from the registry before the
ticket-creation path is invoked is false: `on_reaction_add` deletes the
entry only at line 521, after awaiting `create_support_ticket` (line 509).
At this concrete state the registry handed to the create call still
contains the offer, and the create call is in fact issued. -/
theorem registry_not_cleared_before_store_call :
    registry_at_store_call demoState false "🎫" 1 demoReactor = some demoState.pending_tickets ∧
    aget demoState.pending_tickets 1 = some demoInfo ∧
    ((on_reaction_add demoState false "🎫" 1 demoReactor none (some "T-9")).2.1).isSome = true := by
  refine ⟨by decide, by decide, by decide⟩

/-- C5 (amended): in a successful escalation the offer is consumed after
the ticket-creation call returns, not before: the registry at the moment
the create call is issued is still the full `st.pending_tickets`
(containing the offer), and when the create path returns normally the
resulting state has the offer deleted. -/
theorem offer_removed_after_create_returns
    (st : BotState) (msgId : Nat) (reactor : Author) (channel : Option String)
    (m : Option String) (info : PendingTicket)
    (hfind : aget st.pending_tickets msgId = some info)
    (howner : info.user_id = reactor.id) :
    registry_at_store_call st false "🎫" msgId reactor = some st.pending_tickets ∧
    (∀ st1 call r,
      create_support_ticket st reactor channel info.issue info.analysis m = (st1, call, Except.ok r) →
      (on_reaction_add st false "🎫" msgId reactor channel m).1.pending_tickets = adel st.pending_tickets msgId) := by
  constructor
  · simp [registry_at_store_call, hfind, howner]
  · intro st1 call r hcr
    have hpend : st1.pending_tickets = st.pending_tickets := by
      have := create_pending_unchanged st reactor channel info.issue info.analysis m
      rw [hcr] at this
      simpa using this
    simp [on_reaction_add, hfind, howner, hcr, hpend]

/-- Witness for C5 (amended) at the demo state. -/
theorem offer_removed_after_create_returns_witness :
    (on_reaction_add demoState false "🎫" 1 demoReactor none (some "T-1")).1.pending_tickets =
      adel demoState.pending_tickets 1 :=
  (offer_removed_after_create_returns demoState 1 demoReactor none (some "T-1") demoInfo
    (by decide) (by decide)).2 _ _ _ rfl

/-- Classification of the spec's "water leaking everywhere" scenario. -/
def mechAnalysis : List (String × JVal) :=
  [("action", JVal.jstr "create_ticket"), ("response", JVal.jstr "professional help needed"),
   ("severity", JVal.jstr "high"), ("category", JVal.jstr "mechanical"), ("urgency", JVal.jstr "high")]

/-- C7: the claim that the ticket summary is "<Category Title> issue" is
false: line 437 builds `"Washing Machine Issue - " + category.title()`,
so for category "mechanical" the summary field handed to the Mantis
request is "Washing Machine Issue - Mechanical", not "Mechanical issue". -/
theorem ticket_summary_counterexample :
    ((create_support_ticket ⟨[], [], []⟩ ⟨7, "alice", "@alice"⟩ (some "#support")
        "water leaking everywhere" mechAnalysis (some "T-42")).2.1).map
        (fun c => (mantis_ticket_data c.title c.description c.severity (some c.user_id)).summary) =
      some "Washing Machine Issue - Mechanical" ∧
    some "Washing Machine Issue - Mechanical" ≠ some "Mechanical issue" := by
  refine ⟨by decide, by decide⟩

/-- C7 (amended): whenever the classification carries a string category,
the summary passed to the ticket store is
`"Washing Machine Issue - " ++` the title-cased category. -/
theorem ticket_summary_prefixed_category
    (st : BotState) (author : Author) (channel : Option String) (issue : String)
    (analysis : List (String × JVal)) (m : Option String) (cat : String)
    (hcat : dget analysis "category" = some (JVal.jstr cat)) :
    ((create_support_ticket st author channel issue analysis m).2.1).map
        (fun c => (mantis_ticket_data c.title c.description c.severity (some c.user_id)).summary) =
      some ("Washing Machine Issue - " ++ pyTitle cat) := by
  unfold create_support_ticket
  rw [hcat]
  cases m with
  | none => simp [jvalTitle, mantis_ticket_data]
  | some tid =>
    cases h2 : jvalTitle ((dget analysis "severity").getD (JVal.jstr "medium")) with
    | none => simp [jvalTitle, h2, mantis_ticket_data]
    | some ttl => simp [jvalTitle, h2, mantis_ticket_data]

/-- Witness for C7 (amended) at the mechanical classification. -/
theorem ticket_summary_prefixed_category_witness :
    ((create_support_ticket ⟨[], [], []⟩ ⟨7, "alice", "@alice"⟩ none "drum noise" mechAnalysis none).2.1).map
        (fun c => (mantis_ticket_data c.title c.description c.severity (some c.user_id)).summary) =
      some ("Washing Machine Issue - " ++ pyTitle "mechanical") :=
  ticket_summary_prefixed_category ⟨[], [], []⟩ ⟨7, "alice", "@alice"⟩ none "drum noise"
    mechAnalysis none "mechanical" (by decide)

/-- C8: when the classification is an object whose action is not
"provide_solution" (the escalate branch) and the ticket store returns an
id, the orchestrator reports ticket creation, the local index gains a row
under that id, and the latest-ticket pointer of the requester is set to
it. -/
theorem escalate_action_creates_and_persists
    (st : BotState) (author : Author) (channel : Option String) (msgId : Nat)
    (origContent content : String) (t : Transport) (tid : String)
    (d : List (String × JVal)) (a : JVal)
    (hg : isGreeting content = false)
    (ha : analyze_issue t = Json.obj d)
    (hact : dget d "action" = some a)
    (hna : (a == JVal.jstr "provide_solution") = false)
    (hsafe : safeAnalysis d = true) :
    (handle_support_request st author channel msgId origContent content t (some tid)).2.2 =
      HandleOutcome.ticketCreated tid ∧
    (dbLookup (handle_support_request st author channel msgId origContent content t (some tid)).1.db tid).isSome = true ∧
    aget (handle_support_request st author channel msgId origContent content t (some tid)).1.user_tickets author.id = some tid := by
  have hsafe2 : strOrAbsent d "category" = true ∧ strOrAbsent d "severity" = true := by
    simpa [safeAnalysis, Bool.and_eq_true] using hsafe
  obtain ⟨hres, hdb, hut⟩ := create_components_some st author channel content d tid hsafe2.1 hsafe2.2
  rcases hcr : create_support_ticket st author channel content d (some tid) with ⟨st1, call, res⟩
  rw [hcr] at hres hdb hut
  simp only at hres hdb hut
  subst hres
  have hh : handle_support_request st author channel msgId origContent content t (some tid) =
      (st1, call, HandleOutcome.ticketCreated tid) := by
    simp [handle_support_request, hg, ha, hact, hna, hcr]
  rw [hh]
  refine ⟨rfl, ?_, ?_⟩
  · rw [hdb]
    simpa using congrArg Option.isSome
      (dbLookup_dbUpsert st.db ⟨tid, toString author.id, author.display_name, content,
        (dget d "severity").getD (JVal.jstr "medium"), (dget d "category").getD (JVal.jstr "general")⟩)
  · rw [hut]
    exact aget_aset st.user_tickets author.id tid

/-- Witness for C8: timeout classification (the fallback escalates) with
store id "T-42". -/
theorem escalate_action_creates_and_persists_witness :
    (handle_support_request ⟨[], [], []⟩ ⟨7, "alice", "@alice"⟩ none 1 "leak" "leak" Transport.timeout (some "T-42")).2.2 =
      HandleOutcome.ticketCreated "T-42" ∧
    (dbLookup (handle_support_request ⟨[], [], []⟩ ⟨7, "alice", "@alice"⟩ none 1 "leak" "leak" Transport.timeout (some "T-42")).1.db "T-42").isSome = true ∧
    aget (handle_support_request ⟨[], [], []⟩ ⟨7, "alice", "@alice"⟩ none 1 "leak" "leak" Transport.timeout (some "T-42")).1.user_tickets 7 = some "T-42" :=
  escalate_action_creates_and_persists ⟨[], [], []⟩ ⟨7, "alice", "@alice"⟩ none 1 "leak" "leak"
    Transport.timeout "T-42" fallback_response (JVal.jstr "create_ticket")
    (by decide) (by decide) (by decide) (by decide) (by decide)

/-- C9: when the classification escalates but the ticket store returns
`None`, the orchestrator reports the creation failure and the state is
exactly unchanged: no local-index row is written and the latest-ticket
pointer is untouched. -/
theorem store_null_yields_failure_no_side_effects
    (st : BotState) (author : Author) (channel : Option String) (msgId : Nat)
    (origContent content : String) (t : Transport)
    (d : List (String × JVal)) (a : JVal)
    (hg : isGreeting content = false)
    (ha : analyze_issue t = Json.obj d)
    (hact : dget d "action" = some a)
    (hna : (a == JVal.jstr "provide_solution") = false)
    (hcat : strOrAbsent d "category" = true) :
    (handle_support_request st author channel msgId origContent content t none).2.2 =
      HandleOutcome.ticketFailed ∧
    (handle_support_request st author channel msgId origContent content t none).1 = st := by
  obtain ⟨hres, hst⟩ := create_components_none st author channel content d hcat
  rcases hcr : create_support_ticket st author channel content d none with ⟨st1, call, res⟩
  rw [hcr] at hres hst
  simp only at hres hst
  subst hres
  have hh : handle_support_request st author channel msgId origContent content t none =
      (st1, call, HandleOutcome.ticketFailed) := by
    simp [handle_support_request, hg, ha, hact, hna, hcr]
  rw [hh]
  exact ⟨rfl, hst⟩

/-- Witness for C9: timeout classification with a store that returns
`None`. -/
theorem store_null_yields_failure_no_side_effects_witness :
    (handle_support_request ⟨[], [], []⟩ ⟨7, "alice", "@alice"⟩ none 1 "leak" "leak" Transport.timeout none).2.2 =
      HandleOutcome.ticketFailed ∧
    (handle_support_request ⟨[], [], []⟩ ⟨7, "alice", "@alice"⟩ none 1 "leak" "leak" Transport.timeout none).1 =
      (⟨[], [], []⟩ : BotState) :=
  store_null_yields_failure_no_side_effects ⟨[], [], []⟩ ⟨7, "alice", "@alice"⟩ none 1 "leak" "leak"
    Transport.timeout fallback_response (JVal.jstr "create_ticket")
    (by decide) (by decide) (by decide) (by decide) (by decide)

theorem exists_jstr_of_match (o : Option JVal)
    (h : (match o with
          | some (JVal.jstr _) => true
          | _ => false) = true) :
    ∃ s, o = some (JVal.jstr s) := by
  cases o with
  | none => simp at h
  | some v =>
    cases v with
    | jstr s => exact ⟨s, rfl⟩
    | jint n => simp at h
    | jtrue => simp at h
    | jfalse => simp at h
    | jnull => simp at h

theorem send_solution_ok_of_fields (st : BotState) (author : Author) (origContent : String)
    (msgId : Nat) (d : List (String × JVal))
    (hrv : (dget d "response").isSome = true)
    (hsv : ∃ s, dget d "severity" = some (JVal.jstr s))
    (hcv : ∃ s, dget d "category" = some (JVal.jstr s)) :
    ∃ st1, send_solution_response st author origContent msgId d = (st1, Except.ok ()) := by
  obtain ⟨rv, hrv2⟩ := Option.isSome_iff_exists.mp hrv
  obtain ⟨ss, hs⟩ := hsv
  obtain ⟨cs, hc⟩ := hcv
  refine ⟨{ st with pending_tickets := aset st.pending_tickets msgId ⟨author.id, origContent, d⟩ }, ?_⟩
  simp [send_solution_response, hrv2, hs, hc, jvalTitle]

/-- C10: the claim that `handle` always returns one of the three
orchestrator results is false: for an empty or greeting text ("hi",
"hello", "help", any case) the handler short-circuits into the help embed
before classification, which is none of Guidance, TicketCreated or
TicketCreationFailed. -/
theorem greeting_not_orchestrator_result :
    (handle_support_request ⟨[], [], []⟩ ⟨7, "alice", "@alice"⟩ none 1 "hi" "hi" Transport.timeout none).2.2 =
      HandleOutcome.helpMessage ∧
    isOrchestratorResult
      (handle_support_request ⟨[], [], []⟩ ⟨7, "alice", "@alice"⟩ none 1 "hi" "hi" Transport.timeout none).2.2 = false := by
  refine ⟨by decide, by decide⟩

/-- C10 (amended): for a non-greeting, non-empty text and a classification
payload whose chosen branch finds the fields it reads (which includes the
fallback payload produced on any classifier failure), the handler returns
exactly one of the three orchestrator results and never raises; when the
classifier times out the fallback classification routes to the ticket
path, whose outcome is decided by the store result. -/
theorem handle_returns_orchestrator_result
    (st : BotState) (author : Author) (channel : Option String) (msgId : Nat)
    (origContent content : String) (t : Transport) (m : Option String)
    (h1 : isGreeting content = false)
    (h2 : handleSafe (analyze_issue t) = true) :
    isOrchestratorResult (handle_support_request st author channel msgId origContent content t m).2.2 = true ∧
    (t = Transport.timeout →
      (handle_support_request st author channel msgId origContent content t m).2.2 =
        (match m with
         | some tid => HandleOutcome.ticketCreated tid
         | none => HandleOutcome.ticketFailed)) := by
  cases ha : analyze_issue t with
  | prim v => rw [ha] at h2; simp [handleSafe] at h2
  | obj d =>
    rw [ha] at h2
    cases hact : dget d "action" with
    | none => simp [handleSafe, hact] at h2
    | some a =>
      by_cases hpa : (a == JVal.jstr "provide_solution") = true
      · simp only [handleSafe, hact, hpa, if_true, Bool.and_eq_true] at h2
        obtain ⟨⟨hrv, hsv⟩, hcv⟩ := h2
        obtain ⟨st1, hsol⟩ := send_solution_ok_of_fields st author origContent msgId d hrv
          (exists_jstr_of_match _ hsv) (exists_jstr_of_match _ hcv)
        have hh : handle_support_request st author channel msgId origContent content t m =
            (st1, none, HandleOutcome.solution) := by
          simp [handle_support_request, h1, ha, hact, hpa, hsol]
        rw [hh]
        refine ⟨rfl, ?_⟩
        intro ht
        exfalso
        rw [ht] at ha
        have hd : fallback_response = d := by
          have h5 := ha
          simpa [analyze_issue] using h5
        subst hd
        rw [show dget fallback_response "action" = some (JVal.jstr "create_ticket") from by decide] at hact
        have haa : a = JVal.jstr "create_ticket" := by simpa using hact.symm
        rw [haa] at hpa
        simp at hpa
      · have hpa2 : (a == JVal.jstr "provide_solution") = false := by
          simpa using hpa
        simp only [handleSafe, hact, hpa2, Bool.false_eq_true, if_false] at h2
        have hsafe2 : strOrAbsent d "category" = true ∧ strOrAbsent d "severity" = true := by
          simpa [safeAnalysis, Bool.and_eq_true] using h2
        cases m with
        | some tid =>
          obtain ⟨hres, hdb, hut⟩ := create_components_some st author channel content d tid hsafe2.1 hsafe2.2
          rcases hcr : create_support_ticket st author channel content d (some tid) with ⟨st1, call, res⟩
          rw [hcr] at hres
          simp only at hres
          subst hres
          have hh : handle_support_request st author channel msgId origContent content t (some tid) =
              (st1, call, HandleOutcome.ticketCreated tid) := by
            simp [handle_support_request, h1, ha, hact, hpa2, hcr]
          rw [hh]
          exact ⟨rfl, fun _ => rfl⟩
        | none =>
          obtain ⟨hres, hst⟩ := create_components_none st author channel content d hsafe2.1
          rcases hcr : create_support_ticket st author channel content d none with ⟨st1, call, res⟩
          rw [hcr] at hres
          simp only at hres
          subst hres
          have hh : handle_support_request st author channel msgId origContent content t none =
              (st1, call, HandleOutcome.ticketFailed) := by
            simp [handle_support_request, h1, ha, hact, hpa2, hcr]
          rw [hh]
          exact ⟨rfl, fun _ => rfl⟩

/-- Witness for C10 (amended): timeout classification, non-greeting text,
store id "T-7". -/
theorem handle_returns_orchestrator_result_witness :
    isOrchestratorResult
      (handle_support_request ⟨[], [], []⟩ ⟨7, "alice", "@alice"⟩ none 1 "no spin" "no spin" Transport.timeout (some "T-7")).2.2 = true :=
  (handle_returns_orchestrator_result ⟨[], [], []⟩ ⟨7, "alice", "@alice"⟩ none 1 "no spin" "no spin"
    Transport.timeout (some "T-7") (by decide) (by decide)).1
